import Mathlib

/-!
Verification of the YasenBaka sequential media-playback engine.

This file shallowly embeds the playback engine of
`src/music/abstract_music_player.py` (class `AbstractMusicPlayer`) and the
channel-membership gate of `src/music/music_util.py` (`check_conditions`).

Modelling conventions:
* An `Entry` is opaque to the engine, so entries are modelled as `Nat` ids.
* The engine state `MusicPlayer` carries the fields `entry_queue` (the
  `collections.deque`, as a `List` with head = front), `current`
  (`Optional[Entry]`) and `playing` (`bool`), exactly the mutable state of
  `AbstractMusicPlayer` that the claims concern.  The `finished` single-slot
  queue is the loop's suspension point; in the sequential embedding the
  completion handoff is the point where the `__after` callback has fired
  before the loop resumes.
* The discord `Context`'s voice client is modelled by a `Bool` `hasVC`
  (whether `ctx.voice_client` is non-None); the externally visible effects of
  `stop` on the voice client (`vc.stop()` / `vc.disconnect()`) are recorded
  in a `StopEffects` record.
* The unbounded `while True` loop of `__play` is embedded with explicit fuel;
  with fuel at least the queue length the fuel-exhaustion branch is never
  taken (proved below), and `deque.popleft()` on an empty deque is embedded
  as the Python `IndexError`.
-/

/-- Effects performed on the voice client by one call to `stop`:
whether `vc.stop()` was called (the sink was halted) and whether
`vc.disconnect()` was called (the transport connection released). -/
structure StopEffects where
  haltedSink : Bool
  disconnected : Bool
deriving DecidableEq, Repr

/-- State of `AbstractMusicPlayer`: the entry queue (front at the head of the
list), the currently playing entry, and the `playing` flag, as initialised in
`__init__` and mutated by the methods below. -/
structure MusicPlayer where
  entry_queue : List Nat
  current : Option Nat
  playing : Bool
deriving DecidableEq, Repr

/-- The state `__init__` builds: empty deque, `current = None`,
`playing = False`. -/
def initPlayer : MusicPlayer := ⟨[], none, false⟩

namespace MusicPlayer

/-- Embeds the `empty` property:
`return self.current is None and not self.entry_queue`. -/
def empty (p : MusicPlayer) : Bool :=
  p.current == none && p.entry_queue.isEmpty

/-- Embeds the `total_page` property:
`return len(self.entry_queue) // 10 + 1`. -/
def total_page (p : MusicPlayer) : Nat :=
  p.entry_queue.length / 10 + 1

/-- Embeds `stop(ctx, disconnect)`: sets `current = None`, clears the queue,
then calls `vc.stop()` if `ctx.voice_client` is present and `vc.disconnect()`
if it is present and `disconnect` is true.  Returns the new state and the
voice-client effects. -/
def stop (p : MusicPlayer) (hasVC : Bool) (disconnect : Bool) :
    MusicPlayer × StopEffects :=
  let p1 : MusicPlayer := { p with current := none, entry_queue := [] }
  (p1, ⟨hasVC, hasVC && disconnect⟩)

/-- Embeds the `__after` completion callback at the point the loop consumes
the completion signal: the finished entry has been pushed into `finished`
and `self.current` set to `None`. -/
def after_cb (p : MusicPlayer) : MusicPlayer :=
  { p with current := none }

/-- Embeds `__play_next(ctx)`: if the engine is empty, set `playing = False`,
call `self.stop(ctx, True)` and return `False` (exit the loop); otherwise
return `True` (continue).  The `Option StopEffects` records the voice-client
effects of the stop call, when one was performed. -/
def play_next (p : MusicPlayer) (hasVC : Bool) :
    MusicPlayer × Bool × Option StopEffects :=
  if p.empty then
    let p1 : MusicPlayer := { p with playing := false }
    let r := p1.stop hasVC true
    (r.1, false, some r.2)
  else
    (p, true, none)

/-- Embeds the `while True` body of `__play`: each iteration sets
`playing = True`, pops the queue head into `current` (an `IndexError` if the
deque is empty), plays it, waits for the completion signal (after which
`__after` has cleared `current`), and consults `__play_next`.  Returns the
entries played in order, the final state, and the list of stop effects
performed.  Fuel bounds the number of iterations; the source loop is unbounded. -/
def play_loop : Nat → MusicPlayer → Bool →
    Except String (List Nat × MusicPlayer × List StopEffects)
  | 0, _, _ => .error "out of fuel"
  | fuel + 1, p, hasVC =>
    let p1 : MusicPlayer := { p with playing := true }
    match p1.entry_queue with
    | [] => .error "IndexError: pop from an empty deque"
    | e :: rest =>
      let p2 : MusicPlayer := { p1 with entry_queue := rest, current := some e }
      let p3 := p2.after_cb
      let r := p3.play_next hasVC
      if r.2.1 then
        match play_loop fuel r.1 hasVC with
        | .ok (played, p5, effs) => .ok (e :: played, p5, r.2.2.toList ++ effs)
        | .error s => .error s
      else
        .ok ([e], r.1, r.2.2.toList)

/-- Embeds the private `__play(ctx)`: return immediately if the engine is
empty, otherwise run the loop. -/
def play_priv (fuel : Nat) (p : MusicPlayer) (hasVC : Bool) :
    Except String (List Nat × MusicPlayer × List StopEffects) :=
  if p.empty then .ok ([], p, [])
  else play_loop fuel p hasVC

/-- Embeds the public `play(ctx)`: if `self.playing` is true return
immediately, otherwise call `__play`. -/
def play (fuel : Nat) (p : MusicPlayer) (hasVC : Bool) :
    Except String (List Nat × MusicPlayer × List StopEffects) :=
  if p.playing then .ok ([], p, [])
  else p.play_priv fuel hasVC

/-- Modelled from the spec: `enqueue` raises `NotImplementedError` in
`AbstractMusicPlayer` and its concrete implementation is not under `src/`;
per the spec it appends the entry at the tail of the queue and does not
itself start playback. -/
def enqueue (p : MusicPlayer) (e : Nat) : MusicPlayer :=
  { p with entry_queue := p.entry_queue ++ [e] }

end MusicPlayer

/-- Enqueue a sequence of entries in order. -/
def enqueueAll (p : MusicPlayer) (es : List Nat) : MusicPlayer :=
  es.foldl MusicPlayer.enqueue p

/-- Number of queued-plus-current items: queue entries plus the currently
playing entry if set.  This definition follows the wording of the spec
sentence about `totalPages` (it is the spec's counting, not a function of
the source) and exists to compare that wording with `total_page`. -/
def queuedPlusCurrent (p : MusicPlayer) : Nat :=
  p.entry_queue.length + (if p.current.isSome then 1 else 0)

/-- Normalise a Python slice index against a list of length `len`:
a negative index counts from the end (clamped below at 0), a non-negative
index is clamped above at `len`.  This is CPython's
`PySlice_AdjustIndices` behaviour for a slice with step 1. -/
def pyIndex (len : Nat) (i : Int) : Nat :=
  if i < 0 then ((len : Int) + i).toNat else min i.toNat len

/-- Python list slicing `l[start:fin]` with step 1: elements from the
normalised `start` (inclusive) to the normalised `fin` (exclusive); empty
when the normalised start is not below the normalised end.  Never fails. -/
def pySlice (l : List Nat) (start fin : Int) : List Nat :=
  let s := pyIndex l.length start
  let e := pyIndex l.length fin
  (l.drop s).take (e - s)

/-- Observable outcome of `playlist(ctx, page)`: the `ctx.send` of
`'Playlist is empty'` with no embed returned, the `ctx.send` of
`'Page {page} is not in the playlist.'` with no embed returned, or the
returned `playlist_embed(ctx, page, total_page, current, section)` with the
arguments it was built from. -/
inductive PlaylistResult where
  | emptyMsg : PlaylistResult
  | pageNotInPlaylist : Int → PlaylistResult
  | rendered : Int → Nat → Option Nat → List Nat → PlaylistResult
deriving DecidableEq, Repr

namespace MusicPlayer

/-- Embeds `playlist(ctx, page)`: if the engine is empty, send
`'Playlist is empty'` and return nothing; otherwise take the slice
`self.lst[10*(page-1) : 10*(page-1)+10]`; if the slice is empty and
`self.current` is `None`, send the page-not-in-playlist message and return
nothing; otherwise return the rendered page.  The method reads state only
(it returns no `MusicPlayer`, mirroring that the source mutates nothing). -/
def playlist (p : MusicPlayer) (page : Int) : PlaylistResult :=
  if p.empty then .emptyMsg
  else
    let start := 10 * (page - 1)
    let sect := pySlice p.entry_queue start (start + 10)
    if sect = [] ∧ p.current = none then .pageNotInPlaylist page
    else .rendered page p.total_page p.current sect

end MusicPlayer

/-- Modelled from the spec: the module `music/playing_status.py` defining the
`PlayingStatus` enum is not under `src/`; the spec names only
`PlayingStatus.NO` (idle), so the model has the idle status and an active
status, which is all `check_conditions` distinguishes. -/
inductive PlayingStatus where
  | NO : PlayingStatus
  | active : PlayingStatus
deriving DecidableEq, Repr

/-- Embeds `check_conditions(ctx, music_player)` from
`src/music/music_util.py`.  Inputs: the caller's voice channel
`ch = ctx.author.voice.channel` (channels modelled as `Nat` ids, `none` for
no channel), the engine's `playing_status`, and `ctx.voice_client.channel`
where the `AttributeError` of a missing voice client is caught and yields
`ctx_ch = None` (so the input is already an `Option`).  Returns the tuple
`(condition matched, message to send if any)`.  The second message string
reproduces the source's adjacent string literals, which concatenate without
a space. -/
def check_conditions (ch : Option Nat) (status : PlayingStatus)
    (voice_client_channel : Option Nat) : Bool × Option String :=
  let ctx_ch := voice_client_channel
  if status = PlayingStatus.NO ∧ ch = none then
    (false, some "You must be in a voice channel to use this command.")
  else if status ≠ PlayingStatus.NO ∧ ¬(ch = ctx_ch ∨ ctx_ch = none) then
    (false,
     some "You must be in the same voicechannel as me to use this command.")
  else
    (true, none)

-- Basic sanity examples (evaluating the embedding on concrete states).
example : MusicPlayer.empty initPlayer = true := by decide
example : MusicPlayer.total_page ⟨[1, 2, 3], none, false⟩ = 1 := by decide
example : MusicPlayer.play_loop 2 ⟨[7, 8], none, false⟩ true =
    .ok ([7, 8], ⟨[], none, false⟩, [⟨true, true⟩]) := rfl
example : MusicPlayer.playlist ⟨[], none, false⟩ 1 = .emptyMsg := by decide
example : MusicPlayer.playlist ⟨[1, 2], some 0, false⟩ 1 =
    .rendered 1 1 (some 0) [1, 2] := by decide
example : MusicPlayer.playlist ⟨[1, 2], none, false⟩ 5 =
    .pageNotInPlaylist 5 := by decide
example : pySlice [0, 1, 2, 3, 4] (-3) (-1) = [2, 3] := by decide
example : check_conditions none PlayingStatus.NO none =
    (false, some "You must be in a voice channel to use this command.") := by
  decide

/-- Enqueueing a list of entries appends them, in order, at the tail of the
queue and changes nothing else. -/
theorem enqueueAll_spec (es : List Nat) : ∀ p : MusicPlayer,
    enqueueAll p es = ⟨p.entry_queue ++ es, p.current, p.playing⟩ := by
  induction es with
  | nil => intro p; simp [enqueueAll]
  | cons e rest ih =>
    intro p
    have h1 : enqueueAll p (e :: rest) = enqueueAll (p.enqueue e) rest := rfl
    rw [h1, ih]
    simp [MusicPlayer.enqueue]

/-- Unfolding of one iteration of the play loop on a non-empty queue. -/
theorem play_loop_cons (fuel : Nat) (e : Nat) (rest : List Nat)
    (cur : Option Nat) (pl hasVC : Bool) :
    MusicPlayer.play_loop (fuel + 1) ⟨e :: rest, cur, pl⟩ hasVC =
      (if ((⟨rest, none, true⟩ : MusicPlayer).play_next hasVC).2.1 then
        match MusicPlayer.play_loop fuel
            ((⟨rest, none, true⟩ : MusicPlayer).play_next hasVC).1 hasVC with
        | .ok (played, p5, effs) =>
            .ok (e :: played, p5,
              ((⟨rest, none, true⟩ : MusicPlayer).play_next
                hasVC).2.2.toList ++ effs)
        | .error s => .error s
      else
        .ok ([e], ((⟨rest, none, true⟩ : MusicPlayer).play_next hasVC).1,
          ((⟨rest, none, true⟩ : MusicPlayer).play_next hasVC).2.2.toList)) :=
  rfl

/-- With fuel equal to the queue length, the play loop started on a
non-empty queue plays exactly the queued entries in order, ends in the
drained Idle state, and performs exactly one stop, with disconnect. -/
theorem play_loop_fifo (es : List Nat) : ∀ (cur : Option Nat)
    (pl hasVC : Bool), es ≠ [] →
    MusicPlayer.play_loop es.length ⟨es, cur, pl⟩ hasVC =
      .ok (es, ⟨[], none, false⟩, [⟨hasVC, hasVC⟩]) := by
  induction es with
  | nil => intro cur pl hasVC h; exact absurd rfl h
  | cons e rest ih =>
    intro cur pl hasVC _
    cases rest with
    | nil =>
      simp [MusicPlayer.play_loop, MusicPlayer.after_cb, MusicPlayer.play_next,
        MusicPlayer.empty, MusicPlayer.stop]
    | cons f rest2 =>
      have hr : (f :: rest2 : List Nat) ≠ [] := by simp
      have hlen : (e :: f :: rest2 : List Nat).length =
          (f :: rest2 : List Nat).length + 1 := rfl
      rw [hlen, play_loop_cons]
      have hih := ih none true hasVC hr
      rw [List.length_cons] at hih
      simp [MusicPlayer.play_next, MusicPlayer.empty, hih]

/-- C1, counterexample.  On resume with the engine empty, `__play_next`
performs `self.stop(ctx, True)`: with a voice client attached the transport
connection is released (`disconnected = true`), whereas a stop with
`disconnect = False` on the same state would not release it — refuting the
claim that the loop performs a stop with `disconnect = false`. -/
theorem play_next_disconnect_cex :
    (MusicPlayer.play_next ⟨[], none, true⟩ true).2.2 = some ⟨true, true⟩ ∧
      (MusicPlayer.stop ⟨[], none, true⟩ true false).2.disconnected = false := by
  decide

/-- C1, amended.  When the play loop resumes after a completion signal and
the engine is then empty, `__play_next` sets `playing` to false, performs a
stop WITH disconnect (`stop(ctx, True)`, releasing the transport when a
voice client is attached), and signals loop exit (returns false); otherwise
it signals continuation (returns true) and changes nothing. -/
theorem play_next_autostop (p : MusicPlayer) (hasVC : Bool) :
    (p.empty = true →
      p.play_next hasVC = (⟨[], none, false⟩, false, some ⟨hasVC, hasVC⟩)) ∧
    (p.empty = false → p.play_next hasVC = (p, true, none)) := by
  constructor
  · intro h
    simp [MusicPlayer.play_next, h, MusicPlayer.stop]
  · intro h
    simp [MusicPlayer.play_next, h]

/-- Witness for `play_next_autostop` at a concrete empty, suspended state. -/
theorem play_next_autostop_w :
    (⟨[], none, true⟩ : MusicPlayer).empty = true ∧
      (⟨[], none, true⟩ : MusicPlayer).play_next false =
        (⟨[], none, false⟩, false, some ⟨false, false⟩) :=
  ⟨by decide, (play_next_autostop ⟨[], none, true⟩ false).1 (by decide)⟩

/-- C2, counterexample.  With 9 queued entries and a current entry set there
are 10 queued-plus-current items, so the claim predicts `10 // 10 + 1 = 2`
pages, but `total_page` counts only the queue: `9 // 10 + 1 = 1`. -/
theorem total_page_cex :
    queuedPlusCurrent ⟨[0, 1, 2, 3, 4, 5, 6, 7, 8], some 9, false⟩ = 10 ∧
      MusicPlayer.total_page ⟨[0, 1, 2, 3, 4, 5, 6, 7, 8], some 9, false⟩ = 1 ∧
      10 / 10 + 1 = 2 := by
  decide

/-- C2, amended.  The total page count equals `q // 10 + 1` where `q` is the
number of QUEUE entries only (the current entry is not counted); at the
boundary where `q` is an exact multiple of 10 this yields one more page than
the number of full pages. -/
theorem total_page_spec (p : MusicPlayer) :
    p.total_page = p.entry_queue.length / 10 + 1 ∧
      (∀ k, p.entry_queue.length = 10 * k → p.total_page = k + 1) := by
  refine ⟨rfl, ?_⟩
  intro k hk
  simp [MusicPlayer.total_page, hk]

/-- Witness for `total_page_spec` at a 20-entry queue (boundary case). -/
theorem total_page_spec_w :
    (⟨List.range 20, none, false⟩ : MusicPlayer).entry_queue.length = 10 * 2 ∧
      MusicPlayer.total_page ⟨List.range 20, none, false⟩ = 3 :=
  ⟨by decide, (total_page_spec ⟨List.range 20, none, false⟩).2 2 (by decide)⟩

/-- C3, counterexample.  `stop` does not touch the `playing` flag: called
while the loop is active (`playing = True`, an entry current, one queued),
`playing` is still true immediately when `stop` returns, refuting the claim
that `stop` leaves `playing = false` immediately. -/
theorem stop_playing_cex :
    ((⟨[7], some 3, true⟩ : MusicPlayer).stop true false).1.playing = true := by
  decide

/-- C3, amended.  In any engine state, `stop` immediately clears the queue
and unsets `current`; the `playing` flag is left unchanged by `stop` itself
and becomes false when the play loop next resumes: `__play_next` on the
now-empty engine sets `playing` to false. -/
theorem stop_leaves_idle (p : MusicPlayer) (hasVC d : Bool) :
    (p.stop hasVC d).1.entry_queue = [] ∧
      (p.stop hasVC d).1.current = none ∧
      (p.stop hasVC d).1.playing = p.playing ∧
      (((p.stop hasVC d).1.play_next hasVC).1.playing = false ∧
        ((p.stop hasVC d).1.play_next hasVC).2.1 = false) := by
  refine ⟨rfl, rfl, rfl, ?_⟩
  simp [MusicPlayer.stop, MusicPlayer.play_next, MusicPlayer.empty]

/-- C5.  For every engine state, `stop(ctx, True)` and `stop(ctx, False)`
produce the same engine state — queue cleared, current unset — and the same
sink halt; they differ only in whether the transport connection is
released: `True` disconnects exactly when a voice client is attached,
`False` never disconnects. -/
theorem stop_disconnect_flag (p : MusicPlayer) (hasVC : Bool) :
    (p.stop hasVC true).1 = (p.stop hasVC false).1 ∧
      (p.stop hasVC true).1.entry_queue = [] ∧
      (p.stop hasVC true).1.current = none ∧
      (p.stop hasVC false).1.entry_queue = [] ∧
      (p.stop hasVC false).1.current = none ∧
      (p.stop hasVC true).2.haltedSink = (p.stop hasVC false).2.haltedSink ∧
      (p.stop hasVC true).2.disconnected = hasVC ∧
      (p.stop hasVC false).2.disconnected = false := by
  simp [MusicPlayer.stop]

/-- C4.  Starting from the freshly initialised engine, for every sequence of
enqueued entries, `play` pops and plays them in strict FIFO order: the list
of entries played equals the list enqueued, removal happening only at the
head; the engine ends drained and Idle. -/
theorem enqueue_play_fifo (es : List Nat) (hasVC : Bool) :
    MusicPlayer.play es.length (enqueueAll initPlayer es) hasVC =
      (if es = [] then .ok ([], initPlayer, [])
       else .ok (es, ⟨[], none, false⟩, [⟨hasVC, hasVC⟩])) := by
  rw [enqueueAll_spec]
  cases es with
  | nil =>
    simp [MusicPlayer.play, MusicPlayer.play_priv, MusicPlayer.empty,
      initPlayer]
  | cons e rest =>
    have h : MusicPlayer.play (e :: rest).length
        ⟨e :: rest, none, false⟩ hasVC =
        MusicPlayer.play_loop (e :: rest).length
          ⟨e :: rest, none, false⟩ hasVC := by
      simp [MusicPlayer.play, MusicPlayer.play_priv, MusicPlayer.empty]
    simp only [initPlayer, List.nil_append]
    rw [h, play_loop_fifo (e :: rest) none false hasVC (by simp)]
    simp

/-- C6.  Calling `play` while `playing` is already true returns immediately:
no error, no entry played, no stop performed, and the state (queue,
current, playing) is unchanged. -/
theorem play_when_playing_noop (fuel : Nat) (p : MusicPlayer) (hasVC : Bool)
    (h : p.playing = true) :
    MusicPlayer.play fuel p hasVC = .ok ([], p, []) := by
  simp [MusicPlayer.play, h]

/-- Witness for `play_when_playing_noop` at a concrete playing state. -/
theorem play_when_playing_noop_w :
    (⟨[4, 5], some 6, true⟩ : MusicPlayer).playing = true ∧
      MusicPlayer.play 0 ⟨[4, 5], some 6, true⟩ false =
        .ok ([], ⟨[4, 5], some 6, true⟩, []) :=
  ⟨rfl, play_when_playing_noop 0 ⟨[4, 5], some 6, true⟩ false rfl⟩

/-- C7.  For every engine state, the `empty` property is true if and only
if `current` is `None` and the entry queue has zero length. -/
theorem empty_iff_unset_and_nil (p : MusicPlayer) :
    p.empty = true ↔ p.current = none ∧ p.entry_queue = [] := by
  simp [MusicPlayer.empty, List.isEmpty_iff]

/-- C8.  For every page number (zero and negative included), `playlist`
never raises (it is total): on an empty engine it reports the empty
indication and renders no page; when the requested slice
`lst[10*(page-1) : 10*(page-1)+10]` (Python slice semantics) is empty and no
entry is currently playing it reports that the page is not in the playlist
and renders no page; otherwise it returns the rendered page built from the
page number, the total page count, the current entry and the slice.  The
embedding returns no state because the source method mutates none. -/
theorem playlist_cases (p : MusicPlayer) (page : Int) :
    (p.empty = true → p.playlist page = .emptyMsg) ∧
    (p.empty = false →
      pySlice p.entry_queue (10 * (page - 1)) (10 * (page - 1) + 10) = [] →
      p.current = none → p.playlist page = .pageNotInPlaylist page) ∧
    (p.empty = false →
      (pySlice p.entry_queue (10 * (page - 1)) (10 * (page - 1) + 10) ≠ [] ∨
        p.current ≠ none) →
      p.playlist page =
        .rendered page p.total_page p.current
          (pySlice p.entry_queue (10 * (page - 1)) (10 * (page - 1) + 10))) := by
  refine ⟨?_, ?_, ?_⟩
  · intro h
    simp [MusicPlayer.playlist, h]
  · intro h h1 h2
    simp [MusicPlayer.playlist, h, h1, h2]
  · intro h h2
    have hc : ¬(pySlice p.entry_queue (10 * (page - 1))
        (10 * (page - 1) + 10) = [] ∧ p.current = none) := by
      tauto
    simp [MusicPlayer.playlist, h, hc]

/-- Witness for `playlist_cases`: an empty engine and a negative page give
the empty indication. -/
theorem playlist_cases_w :
    initPlayer.empty = true ∧ initPlayer.playlist (-3) = .emptyMsg :=
  ⟨by decide, (playlist_cases initPlayer (-3)).1 (by decide)⟩

/-- C9.  Whenever the engine's playing status is idle (`PlayingStatus.NO`)
and the caller is in no voice channel, `check_conditions` returns the
rejection `(False, 'You must be in a voice channel to use this command.')`,
whatever the bot's voice-client channel is; the function is total, so no
exception is raised. -/
theorem gate_idle_no_channel (ch : Option Nat) (status : PlayingStatus)
    (vcch : Option Nat) (h1 : status = PlayingStatus.NO) (h2 : ch = none) :
    check_conditions ch status vcch =
      (false, some "You must be in a voice channel to use this command.") := by
  subst h1 h2
  simp [check_conditions]

/-- Witness for `gate_idle_no_channel` with the bot attached to channel 1. -/
theorem gate_idle_no_channel_w :
    check_conditions none PlayingStatus.NO (some 1) =
      (false, some "You must be in a voice channel to use this command.") :=
  gate_idle_no_channel none PlayingStatus.NO (some 1) rfl rfl

/-- C10.  Whenever the engine's playing status is not idle and the bot's
voice-client channel is absent (`ctx_ch = None`, the caught-AttributeError
case), `check_conditions` returns `(True, None)` for every caller channel,
including none. -/
theorem gate_active_unattached (ch : Option Nat) (status : PlayingStatus)
    (h : status ≠ PlayingStatus.NO) :
    check_conditions ch status none = (true, none) := by
  simp [check_conditions, h]

/-- Witness for `gate_active_unattached` with the caller in no channel. -/
theorem gate_active_unattached_w :
    check_conditions none PlayingStatus.active none = (true, none) :=
  gate_active_unattached none PlayingStatus.active (by decide)
